import Mathlib

/-!
# Shallow embedding of the agentic-coding orchestrator core

This file embeds, in Lean, the dispatch state machine of the
agentic-coding orchestrator (TypeScript sources `state.ts`, `rules.ts`,
`dispatch.ts`, `auto.ts`), and proves properties of the embedded code.

Modelling conventions, used throughout:
* ISO-8601 timestamp strings are modelled by their epoch value in
  milliseconds (`Int`); `new Date(x).getTime()` is the identity under this
  modelling, and the JS coercion `new Date(null).getTime() = 0` is modelled
  by `Option.getD 0`.
* Every `Date.now()` / `new Date()` call inside one function invocation is
  modelled by a single parameter `now : Int`.
* Filesystem writes (`writeState`) are modelled by returning the list of
  documents committed during the call; `writeState` validates before
  writing, so a failed validation raises (`Except.error`) and commits
  nothing.
* JS exceptions are modelled with `Except String`.
* Character-level string processing (the report parser, the classifier)
  is modelled over `List Char`; JS `trim`/`toLowerCase` are modelled for
  the ASCII range (the inputs the program manipulates).
-/

deriving instance DecidableEq for Except

namespace Orchestrator

/-! ## JS primitives -/

/-- `Math.round (num / den)` for `den > 0`, i.e. `⌊num/den + 1/2⌋`. -/
def jsMathRound (num den : Int) : Int :=
  Int.fdiv (2 * num + den) (2 * den)

/-- JS `\s` / `String.prototype.trim` whitespace (ASCII range). -/
def isJsWs (c : Char) : Bool :=
  c = ' ' || c = '\t' || c = '\n' || c = '\r' || c = '\x0b' || c = '\x0c'

/-- JS `String.prototype.trim` on a character list. -/
def trimL (l : List Char) : List Char :=
  ((l.dropWhile isJsWs).reverse.dropWhile isJsWs).reverse

/-- JS `String.prototype.toLowerCase` (ASCII range; other characters kept). -/
def lowerL (l : List Char) : List Char :=
  l.map Char.toLower

/-- Index of the first occurrence of a character (JS `indexOf`, `none` for -1). -/
def idxOfChar (c : Char) : List Char → Option Nat
  | [] => none
  | x :: xs => if x = c then some 0 else (idxOfChar c xs).map (· + 1)

/-- JS `String.prototype.startsWith`. -/
def startsWithL (pre l : List Char) : Bool :=
  List.isPrefixOf pre l

/-- First index at which `pat` occurs as a sublist of `hay` (JS `indexOf`). -/
def findSubL : List Char → List Char → Option Nat
  | [], pat => if pat = [] then some 0 else none
  | x :: t, pat =>
    if startsWithL pat (x :: t) then some 0 else (findSubL t pat).map (· + 1)

/-- JS `String.prototype.includes`. -/
def containsSubL (hay pat : List Char) : Bool :=
  (findSubL hay pat).isSome

/-! ## Data model (`state.ts`) -/

/-- Pipeline step names (`VALID_STEPS` of `state.ts`). -/
inductive Step
  | bootstrap | bdd | sddDelta | contract | review | scaffold
  | impl | verify | updateMemory | custom | done
deriving DecidableEq, Fintype

/-- The source string of a `Step` value. -/
def stepName : Step → String
  | .bootstrap => "bootstrap"
  | .bdd => "bdd"
  | .sddDelta => "sdd-delta"
  | .contract => "contract"
  | .review => "review"
  | .scaffold => "scaffold"
  | .impl => "impl"
  | .verify => "verify"
  | .updateMemory => "update-memory"
  | .custom => "custom"
  | .done => "done"

/-- Status values (`VALID_STATUSES` of `state.ts`). -/
inductive Status
  | pending | running | pass | failing | needs_human | timeout
deriving DecidableEq, Fintype

/-- The source string of a `Status` value. -/
def statusName : Status → String
  | .pending => "pending"
  | .running => "running"
  | .pass => "pass"
  | .failing => "failing"
  | .needs_human => "needs_human"
  | .timeout => "timeout"

/-- Reason codes (`VALID_REASONS` of `state.ts`). -/
inductive Reason
  | constitution_violation | needs_clarification | nfr_missing
  | scope_warning | test_timeout
deriving DecidableEq, Fintype

/-- The source string of a `Reason` value. -/
def reasonName : Reason → String
  | .constitution_violation => "constitution_violation"
  | .needs_clarification => "needs_clarification"
  | .nfr_missing => "nfr_missing"
  | .scope_warning => "scope_warning"
  | .test_timeout => "test_timeout"

/-- Test result summary (`TestResults`). -/
structure TestResults where
  pass : Int
  fail : Int
  skip : Int
deriving DecidableEq

/-- The persisted STATE.json document (`State` of `state.ts`,
orchestrator-core variant with `task_type` / `agent_teams`). -/
structure State where
  project : String
  story : Option String
  step : Step
  attempt : Int
  max_attempts : Int
  status : Status
  reason : Option Reason
  dispatched_at : Option Int
  completed_at : Option Int
  timeout_min : Int
  tests : Option TestResults
  failing_tests : List String
  lint_pass : Option Bool
  files_changed : List String
  blocked_by : List String
  human_note : Option String
  task_type : String
  agent_teams : Bool
deriving DecidableEq

/-- `createInitialState(project)`. -/
def createInitialState (project : String) : State :=
  { project := project
    story := none
    step := .bootstrap
    attempt := 1
    max_attempts := 1
    status := .pending
    reason := none
    dispatched_at := none
    completed_at := none
    timeout_min := 5
    tests := none
    failing_tests := []
    lint_pass := none
    files_changed := []
    blocked_by := []
    human_note := none
    task_type := "story"
    agent_teams := false }

/-- `VALID_STEPS` — as in the orchestrator-core `state.ts`
(all eleven step strings, including `custom` and `done`). -/
def VALID_STEPS : List Step :=
  [.bootstrap, .bdd, .sddDelta, .contract, .review, .scaffold,
   .impl, .verify, .updateMemory, .custom, .done]

/-- All status values (`VALID_STATUSES`). -/
def VALID_STATUSES : List Status :=
  [.pending, .running, .pass, .failing, .needs_human, .timeout]

/-- All reason codes (`VALID_REASONS`). -/
def VALID_REASONS : List Reason :=
  [.constitution_violation, .needs_clarification, .nfr_missing,
   .scope_warning, .test_timeout]

/-- The last two guards of `validate` (the attempt / max_attempts range
checks). -/
def validateCounts (s : State) : Except String Unit :=
  if s.attempt < 0 then
    .error ("attempt must be >= 0, got " ++ toString s.attempt)
  else if s.max_attempts < 1 then
    .error ("max_attempts must be >= 1, got " ++ toString s.max_attempts)
  else .ok ()

/-- `validate(state)` — throws (`Except.error`) on the first invalid field.
`!state.project` is true exactly for the empty string in the representable
states. -/
def validate (s : State) : Except String Unit :=
  if s.project = "" then .error "State.project is required"
  else if ¬ VALID_STEPS.contains s.step then
    .error ("Invalid step: \"" ++ stepName s.step ++ "\"")
  else if ¬ VALID_STATUSES.contains s.status then
    .error ("Invalid status: \"" ++ statusName s.status ++ "\"")
  else
    match s.reason with
    | some r =>
      if ¬ VALID_REASONS.contains r then
        .error ("Invalid reason: \"" ++ reasonName r ++ "\"")
      else validateCounts s
    | none => validateCounts s

/-- `writeState(projectRoot, state)` — validates, then commits the document.
The committed document is returned; an `error` commits nothing. -/
def writeState (s : State) : Except String State :=
  match validate s with
  | .error e => .error e
  | .ok _ => .ok s

/-- `isTimedOut(state)`: elapsed minutes since dispatch exceed the budget.
`(now - t)/60000 > timeout_min` over the reals is
`now - t > timeout_min * 60000` over the integers. -/
def isTimedOut (now : Int) (s : State) : Bool :=
  if s.status ≠ .running then false
  else
    match s.dispatched_at with
    | none => false
    | some t => now - t > s.timeout_min * 60000

/-- `isMaxedOut(state)`. -/
def isMaxedOut (s : State) : Bool :=
  s.attempt ≥ s.max_attempts

/-- `markRunning(state)`. -/
def markRunning (now : Int) (s : State) : State :=
  { s with status := .running, dispatched_at := some now,
           completed_at := none, reason := none }

/-- `markCompleted(state, status, reason)`. -/
def markCompleted (now : Int) (s : State) (status : Status)
    (reason : Option Reason) : State :=
  { s with status := status, reason := reason, completed_at := some now }

/-! ## Rules table (`rules.ts`) -/

/-- A step's rule (`StepRule`). The `on_fail` map is kept as its explicit
reason-keyed entries plus the `default` fallback. -/
structure StepRule where
  display_name : String
  next_on_pass : Step
  on_fail : List (Reason × Step)
  on_fail_default : Step
  max_attempts : Int
  timeout_min : Int
  requires_human : Bool
  claude_reads : List String
  claude_writes : List String
  post_check : Option String
  step_instruction : String
deriving DecidableEq

/-- `STEP_RULES.bdd`. -/
def bddRule : StepRule :=
  { display_name := "BDD Scenario Writing"
    next_on_pass := .sddDelta
    on_fail := []
    on_fail_default := .bdd
    max_attempts := 3
    timeout_min := 5
    requires_human := false
    claude_reads := ["PROJECT_CONTEXT.md", "PROJECT_MEMORY.md", ".ai/HANDOFF.md"]
    claude_writes := ["docs/bdd/US-{story}.md"]
    post_check := none
    step_instruction :=
      "Based on MEMORY's NOW/NEXT, write BDD scenarios for this Story. " ++
      "Use RFC 2119 language, tag test levels (@unit, @integration, @component, @e2e, @perf(ID)). " ++
      "Mark unclear items [NEEDS CLARIFICATION]. " ++
      "Include Non-Goals section." }

/-- `STEP_RULES["sdd-delta"]`. -/
def sddDeltaRule : StepRule :=
  { display_name := "SDD Delta Spec"
    next_on_pass := .contract
    on_fail := []
    on_fail_default := .sddDelta
    max_attempts := 3
    timeout_min := 5
    requires_human := false
    claude_reads :=
      ["PROJECT_CONTEXT.md", "PROJECT_MEMORY.md", "docs/bdd/US-{story}.md",
       "docs/sdd.md", ".ai/HANDOFF.md"]
    claude_writes := ["docs/deltas/US-{story}.md"]
    post_check := none
    step_instruction :=
      "Based on BDD scenarios, analyze affected modules, produce Delta Spec " ++
      "(ADDED / MODIFIED / REMOVED). Include Non-Goals / Out of Scope section. " ++
      "Never rewrite the entire SDD." }

/-- `STEP_RULES.contract`. -/
def contractRule : StepRule :=
  { display_name := "API Contract Update"
    next_on_pass := .review
    on_fail := []
    on_fail_default := .contract
    max_attempts := 2
    timeout_min := 5
    requires_human := false
    claude_reads :=
      ["docs/sdd.md", "docs/deltas/US-{story}.md", "docs/api/openapi.yaml",
       ".ai/HANDOFF.md"]
    claude_writes := ["docs/api/openapi.yaml"]
    post_check := none
    step_instruction :=
      "Based on Delta Spec, update affected endpoints/events in OpenAPI/AsyncAPI contracts. " ++
      "Only add or modify affected parts; don't rewrite the entire contract." }

/-- `STEP_RULES.review`. -/
def reviewRule : StepRule :=
  { display_name := "Review Checkpoint"
    next_on_pass := .scaffold
    on_fail :=
      [(.needs_clarification, .bdd), (.constitution_violation, .sddDelta),
       (.scope_warning, .sddDelta)]
    on_fail_default := .bdd
    max_attempts := 1
    timeout_min := 0
    requires_human := true
    claude_reads := []
    claude_writes := []
    post_check := none
    step_instruction := "" }

/-- `STEP_RULES.scaffold`. -/
def scaffoldRule : StepRule :=
  { display_name := "Test Scaffolding"
    next_on_pass := .impl
    on_fail := []
    on_fail_default := .scaffold
    max_attempts := 2
    timeout_min := 5
    requires_human := false
    claude_reads :=
      ["docs/bdd/US-{story}.md", "docs/nfr.md", "docs/api/openapi.yaml",
       ".ai/HANDOFF.md"]
    claude_writes := ["*_test.go", "*.spec.ts"]
    post_check := none
    step_instruction :=
      "Based on BDD scenario tags and NFR table, produce corresponding test " ++
      "skeleton. All tests must fail (red). Use require for Given (preconditions), " ++
      "assert for Then (verification). Use Table-Driven tests for Scenario Outlines." }

/-- `STEP_RULES.impl`. -/
def implRule : StepRule :=
  { display_name := "Implementation"
    next_on_pass := .verify
    on_fail :=
      [(.constitution_violation, .sddDelta), (.needs_clarification, .review),
       (.scope_warning, .review)]
    on_fail_default := .impl
    max_attempts := 5
    timeout_min := 10
    requires_human := false
    claude_reads :=
      ["docs/bdd/US-{story}.md", "docs/sdd.md", "docs/api/openapi.yaml",
       ".ai/HANDOFF.md"]
    claude_writes := ["*.go", "*.ts", "*.tsx"]
    post_check := none
    step_instruction :=
      "Read failing tests, write minimal code to make tests pass, then refactor. " ++
      "Only modify affected files and functions (Diff-Only principle). " ++
      "Don't refactor unrelated code." }

/-- `STEP_RULES.verify`. -/
def verifyRule : StepRule :=
  { display_name := "Verify (Quality Gate)"
    next_on_pass := .updateMemory
    on_fail := []
    on_fail_default := .impl
    max_attempts := 2
    timeout_min := 5
    requires_human := false
    claude_reads :=
      ["docs/bdd/US-{story}.md", "docs/deltas/US-{story}.md", "docs/sdd.md",
       "docs/api/openapi.yaml", "docs/constitution.md", ".ai/HANDOFF.md"]
    claude_writes := []
    post_check := none
    step_instruction :=
      "Execute triple check: " ++
      "Completeness (all BDD scenarios have tests, all Delta items implemented), " ++
      "Correctness (tests pass, NFR thresholds met), " ++
      "Coherence (SDD merged Delta, contracts consistent, Constitution not violated). " ++
      "Merge Delta Spec into main SDD after all checks pass." }

/-- `STEP_RULES["update-memory"]`. -/
def updateMemoryRule : StepRule :=
  { display_name := "Update Memory"
    next_on_pass := .done
    on_fail := []
    on_fail_default := .updateMemory
    max_attempts := 2
    timeout_min := 3
    requires_human := false
    claude_reads := ["PROJECT_MEMORY.md", ".ai/HANDOFF.md"]
    claude_writes := ["PROJECT_MEMORY.md", ".ai/history.md"]
    post_check := none
    step_instruction :=
      "Update MEMORY's NOW/NEXT based on completed work. " ++
      "Append DONE + LOG entry to .ai/history.md (session archive). " ++
      "Overwrite .ai/HANDOFF.md with latest session summary. " ++
      "Record current git commit hash." }

/-- `STEP_RULES.custom`. -/
def customRule : StepRule :=
  { display_name := "Custom Task"
    next_on_pass := .updateMemory
    on_fail := []
    on_fail_default := .custom
    max_attempts := 3
    timeout_min := 15
    requires_human := false
    claude_reads :=
      ["PROJECT_CONTEXT.md", "PROJECT_MEMORY.md", "docs/sdd.md",
       "docs/constitution.md", ".ai/HANDOFF.md"]
    claude_writes := ["*"]
    post_check := none
    step_instruction :=
      "Execute the custom task described in the Human Instruction section above. " ++
      "Follow the project's Constitution constraints. " ++
      "Only modify files relevant to the task — don't refactor unrelated code. " ++
      "If the task is unclear, fill reason with needs_clarification." }

/-- `BOOTSTRAP_RULE`. -/
def BOOTSTRAP_RULE : StepRule :=
  { display_name := "Bootstrap"
    next_on_pass := .bdd
    on_fail := []
    on_fail_default := .bootstrap
    max_attempts := 1
    timeout_min := 10
    requires_human := false
    claude_reads := []
    claude_writes :=
      ["PROJECT_CONTEXT.md", "docs/sdd.md", "docs/constitution.md",
       "PROJECT_MEMORY.md"]
    post_check := none
    step_instruction :=
      "Set up the project using the Agentic Coding Framework. Produce: " ++
      "PROJECT_CONTEXT.md (Why/Who/What + tech stack + project structure), " ++
      "docs/sdd.md (module division + data model skeleton + inter-module interfaces), " ++
      "docs/constitution.md (3-5 inviolable architectural principles), " ++
      "PROJECT_MEMORY.md (initial state). " ++
      "Create directory structure: docs/bdd/, docs/deltas/, docs/api/, docs/ddd/ (if multi-domain)." }

/-- `getRule(step)` — throws for `done`, `BOOTSTRAP_RULE` for `bootstrap`,
`STEP_RULES[step]` otherwise. -/
def getRule : Step → Except String StepRule
  | .bootstrap => .ok BOOTSTRAP_RULE
  | .done => .error "No rule for \"done\" — story is complete"
  | .bdd => .ok bddRule
  | .sddDelta => .ok sddDeltaRule
  | .contract => .ok contractRule
  | .review => .ok reviewRule
  | .scaffold => .ok scaffoldRule
  | .impl => .ok implRule
  | .verify => .ok verifyRule
  | .updateMemory => .ok updateMemoryRule
  | .custom => .ok customRule

/-- `resolvePaths(paths, storyId)` — replace every `\x7bstory\x7d`
occurrence. -/
def resolvePaths (paths : List String) (storyId : String) : List String :=
  paths.map (fun p => p.replace "{story}" storyId)

/-- `getFailTarget(step, reason)` — a reason present in the rule's map routes
there; otherwise the declared default applies. -/
def getFailTarget (step : Step) (reason : Option Reason) : Except String Step := do
  let rule ← getRule step
  match reason with
  | some r =>
    match rule.on_fail.lookup r with
    | some t => pure t
    | none => pure rule.on_fail_default
  | none => pure rule.on_fail_default

/-- `getStepSequence()`. -/
def getStepSequence : List Step :=
  [.bdd, .sddDelta, .contract, .review, .scaffold, .impl, .verify, .updateMemory]

/-! ## Dispatch engine (`dispatch.ts`) -/

/-- Rendering of a nullable string inside a JS template literal
(`null` renders as the text `null`). -/
def jsStr : Option String → String
  | some s => s
  | none => "null"

/-- JS truthiness of a nullable string (null and `""` are falsy). -/
def strTruthy : Option String → Bool
  | some s => s ≠ ""
  | none => false

/-- `elapsedMinutes(isoTimestamp)` =
`Math.round((Date.now() - new Date(iso).getTime()) / 60_000)`. -/
def elapsedMinutes (now t : Int) : Int :=
  jsMathRound (now - t) 60000

/-- `DispatchResult` — the tagged outcome union. -/
inductive DispatchResult
  | dispatched (step : Step) (attempt : Int) (prompt : String) (fw_lv : Int)
  | done (story : String) (summary : String)
  | needs_human (step : Step) (message : String)
  | blocked (step : Step) (reason : String)
  | already_running (step : Step) (elapsed_min : Int)
  | timeout (step : Step) (elapsed_min : Int)
deriving DecidableEq

/-- The `type` tag of a `DispatchResult`. -/
def resultTag : DispatchResult → String
  | .dispatched _ _ _ _ => "dispatched"
  | .done _ _ => "done"
  | .needs_human _ _ => "needs_human"
  | .blocked _ _ => "blocked"
  | .already_running _ _ => "already_running"
  | .timeout _ _ => "timeout"

/-- `buildPrompt(state, rule)` — deterministic template fill. -/
def buildPrompt (s : State) (rule : StepRule) : String :=
  let storyId := s.story.getD "BOOTSTRAP"
  let reads := resolvePaths rule.claude_reads storyId
  let lines : List String :=
    ["You are executing step \"" ++ rule.display_name ++ "\" for " ++ storyId ++ "."]
    ++ (if s.attempt > 1 then
          ["(Attempt " ++ toString s.attempt ++ " of " ++ toString s.max_attempts ++ ")"]
        else [])
    ++ [""]
    ++ (if reads.length > 0 then
          ["Please read the following files in order:"]
          ++ reads.map (fun f => "- " ++ f) ++ [""]
        else [])
    ++ (if strTruthy s.human_note then
          ["=== Human Instruction ===", s.human_note.getD "",
           "==========================", ""]
        else [])
    ++ (if s.attempt > 1 ∧ s.failing_tests.length > 0 then
          ["Previous attempt had these failing tests:"]
          ++ s.failing_tests.map (fun t => "- " ++ t) ++ [""]
        else [])
    ++ (match s.tests with
        | some tr =>
          if s.step = Step.updateMemory then
            ["Test results from this Story:",
             "- Pass: " ++ toString tr.pass ++ ", Fail: " ++ toString tr.fail
               ++ ", Skip: " ++ toString tr.skip]
            ++ (if s.files_changed.length > 0 then
                  ["- Files changed: " ++ String.intercalate ", " s.files_changed]
                else [])
            ++ [""]
          else []
        | none => [])
    ++ (if s.agent_teams then
          ["=== Agent Teams ===",
           "You may spawn sub-agents using Claude Code's agent-teams feature to parallelize this work. "
             ++ "Assign sub-agents by role (e.g. backend, frontend, test) with scoped context. "
             ++ "Each sub-agent should produce its own HANDOFF.md or result summary for you to merge.",
           "===================", ""]
        else [])
    ++ ["=== YOUR PRIMARY TASK ===", rule.step_instruction, "",
        "Focus on completing the task above FIRST. Modify source files, create",
        "tests, update documents — whatever the task requires. Do NOT stop after",
        "just updating .ai/HANDOFF.md — that is only the final bookkeeping step.",
        "=========================", "",
        "After you have completed ALL the work above, do this final bookkeeping:",
        "- Only modify affected files and paragraphs, don't rewrite unrelated content",
        "- Update .ai/HANDOFF.md as a summary of what you did:",
        "  - YAML front matter: fill in story, step, attempt, status, reason, files_changed, tests values",
        "  - Markdown body: record what was done, what's unresolved, what next session should note",
        "- If requirements unclear, set status: failing and reason: needs_clarification",
        "- If Constitution violation found, set status: failing and reason: constitution_violation",
        "- If touching Non-Goals scope, set status: failing and reason: scope_warning"]
  String.intercalate "\n" lines

/-- `formatReviewRequest(state)` (orchestrator-core variant, which resolves
the document paths through `resolvePaths`). -/
def formatReviewRequest (s : State) : String :=
  let storyId := s.story.getD "(no story)"
  let paths := resolvePaths ["docs/bdd/US-{story}.md", "docs/deltas/US-{story}.md"] storyId
  "Story " ++ storyId ++ " is ready for review.\n"
    ++ "Please check:\n"
    ++ "- " ++ paths.getD 0 "" ++ " (BDD scenarios)\n"
    ++ "- " ++ paths.getD 1 "" ++ " (Delta Spec)\n"
    ++ "- docs/api/openapi.yaml (contract changes)\n\n"
    ++ "Reply \"approved\" to continue, or provide feedback."

/-- The `reason` text of the `blocked` outcome (the template literal inlined
in the `isMaxedOut` branch of `_dispatch`). -/
def blockedReason (s : State) : String :=
  "Max attempts (" ++ toString s.max_attempts ++ ") exhausted at step \""
    ++ stepName s.step ++ "\". "
    ++ (match s.reason with
        | some r => "Last reason: " ++ reasonName r
        | none => "No specific reason.")

/-- The final "Dispatch executor" section of `_dispatch`: build the prompt,
and unless dry-running, commit `markRunning(state)`.  The returned outcome
reads `state.step` / `state.attempt` (not the running copy), exactly as the
source does. -/
def dispatchExec (dryRun : Bool) (now : Int) (fwLv : Int) (s : State) :
    Except String (DispatchResult × List State) :=
  match getRule s.step with
  | .error e => .error e
  | .ok currentRule =>
    let prompt := buildPrompt s currentRule
    if dryRun then .ok (.dispatched s.step s.attempt prompt fwLv, [])
    else
      match writeState (markRunning now s) with
      | .error e => .error e
      | .ok w => .ok (.dispatched s.step s.attempt prompt fwLv, [w])

/-- `_dispatch(projectRoot, dryRun)` — the core decision function, after the
persisted state `s` has been read and validated by `readState`.  `fwLv`
models `detectFramework(projectRoot).level`.  The second component of the
result is the list of documents committed by `writeState` during the call
(empty in dry-run mode). -/
def _dispatch (dryRun : Bool) (now : Int) (fwLv : Int) (s : State) :
    Except String (DispatchResult × List State) :=
  if s.step = Step.done then
    .ok (.done (s.story.getD "(no story)")
          ("Story " ++ jsStr s.story ++ " completed."), [])
  else
    match getRule s.step with
    | .error e => .error e
    | .ok rule =>
      if s.status = Status.running then
        if isTimedOut now s then
          let elapsed := elapsedMinutes now (s.dispatched_at.getD 0)
          if dryRun then .ok (.timeout s.step elapsed, [])
          else
            match writeState { s with
                status := Status.timeout, completed_at := some now } with
            | .error e => .error e
            | .ok w => .ok (.timeout s.step elapsed, [w])
        else
          .ok (.already_running s.step
                (elapsedMinutes now (s.dispatched_at.getD 0)), [])
      else if rule.requires_human ∧ s.status ≠ Status.pass then
        if s.status ≠ Status.needs_human ∧ ¬ dryRun then
          let s1 := { s with status := Status.needs_human }
          match writeState s1 with
          | .error e => .error e
          | .ok w => .ok (.needs_human s1.step (formatReviewRequest s1), [w])
        else
          .ok (.needs_human s.step (formatReviewRequest s), [])
      else if s.status = Status.pass then
        let s1 := { s with
          step := rule.next_on_pass, attempt := 1,
          status := Status.pending, reason := none, human_note := none,
          tests := none, failing_tests := [], lint_pass := none,
          files_changed := [] }
        if s1.step = Step.done then
          let res : DispatchResult :=
            .done (s1.story.getD "(no story)")
              ("Story " ++ jsStr s1.story ++ " completed. All steps passed.")
          if dryRun then .ok (res, [])
          else
            match writeState s1 with
            | .error e => .error e
            | .ok w => .ok (res, [w])
        else
          match getRule s1.step with
          | .error e => .error e
          | .ok newRule =>
            if newRule.requires_human then
              let s2 := { s1 with status := Status.needs_human }
              if dryRun then
                .ok (.needs_human s2.step (formatReviewRequest s2), [])
              else
                match writeState s2 with
                | .error e => .error e
                | .ok w => .ok (.needs_human s2.step (formatReviewRequest s2), [w])
            else
              dispatchExec dryRun now fwLv
                { s1 with max_attempts := newRule.max_attempts,
                          timeout_min := newRule.timeout_min }
      else if s.status = Status.failing then
        if isMaxedOut s then
          let s1 := { s with status := Status.needs_human }
          if dryRun then .ok (.blocked s1.step (blockedReason s1), [])
          else
            match writeState s1 with
            | .error e => .error e
            | .ok w => .ok (.blocked s1.step (blockedReason s1), [w])
        else
          match getFailTarget s.step s.reason with
          | .error e => .error e
          | .ok target =>
            if target ≠ s.step then
              match getRule target with
              | .error e => .error e
              | .ok targetRule =>
                dispatchExec dryRun now fwLv
                  { s with step := target, attempt := 1,
                           max_attempts := targetRule.max_attempts,
                           timeout_min := targetRule.timeout_min,
                           status := Status.pending }
            else
              dispatchExec dryRun now fwLv
                { s with attempt := s.attempt + 1, status := Status.pending }
      else
        dispatchExec dryRun now fwLv s

/-- `dispatch(projectRoot)` — the mutating decision entry point. -/
def dispatch (now : Int) (fwLv : Int) (s : State) :
    Except String (DispatchResult × List State) :=
  _dispatch false now fwLv s

/-- `peek(projectRoot)` — the read-only preview. -/
def peek (now : Int) (fwLv : Int) (s : State) :
    Except String (DispatchResult × List State) :=
  _dispatch true now fwLv s

/-! ## Review gate (`approveReview` / `rejectReview`) -/

/-- `approveReview(projectRoot, humanNote?)`.  The returned `ok` value is the
document committed by `writeState`; an `error` carries the thrown message and
commits nothing (the throw precedes the write in the source). -/
def approveReview (s : State) (humanNote : Option String) : Except String State :=
  if s.step ≠ Step.review then
    .error ("Cannot approve review: current step is \"" ++ stepName s.step
      ++ "\", not \"review\"")
  else
    writeState { s with status := Status.pass, human_note := humanNote }

/-- `rejectReview(projectRoot, reason, humanNote?)`. -/
def rejectReview (s : State) (reason : Reason) (humanNote : Option String) :
    Except String State :=
  if s.step ≠ Step.review then
    .error ("Cannot reject review: current step is \"" ++ stepName s.step
      ++ "\", not \"review\"")
  else
    writeState { s with status := Status.failing, reason := some reason,
                        human_note := humanNote }

/-! ## Apply-report (`applyHandoff`) -/

/-- Parsed HANDOFF front matter (`HandoffResult`). -/
structure HandoffData where
  story : Option String
  step : Option String
  attempt : Option Int
  status : Option Status
  reason : Option Reason
  files_changed : List String
  tests_pass : Option Int
  tests_fail : Option Int
  tests_skip : Option Int
  body : String
deriving DecidableEq

/-- `applyHandoff(projectRoot)` after the state has been read; `handoff` is
the result of `parseHandoff` (`none` when no HANDOFF.md file exists).  The
returned `ok` value is the state as committed and returned by the source. -/
def applyHandoff (s : State) (handoff : Option HandoffData) (now : Int) :
    Except String State :=
  match handoff with
  | none =>
    writeState { s with status := Status.failing, reason := none,
                        completed_at := some now }
  | some h =>
    let s1 := { s with
      status :=
        match h.status with
        | some st => st
        | none =>
          match h.tests_fail with
          | some n => if n > 0 then Status.failing else Status.pass
          | none => Status.pass
      reason := h.reason
      completed_at := some now }
    let s2 :=
      if h.files_changed.length > 0 then
        { s1 with files_changed := h.files_changed }
      else s1
    let s3 :=
      if h.tests_pass ≠ none ∨ h.tests_fail ≠ none ∨ h.tests_skip ≠ none then
        { s2 with
          tests := some { pass := h.tests_pass.getD 0, fail := h.tests_fail.getD 0,
                          skip := h.tests_skip.getD 0 }
          failing_tests := [] }
      else s2
    writeState s3

/-! ## Report front-matter parser (`parseSimpleYaml`)

The parser works character-by-character, so it is embedded over
`List Char`. -/

/-- Shorthand: the character list of a string literal. -/
def cs (s : String) : List Char := s.toList

/-- Lower-case hex digit of `n < 16`. -/
def hexDigit (n : Nat) : Char :=
  if n < 10 then Char.ofNat (48 + n) else Char.ofNat (87 + n)

/-- `JSON.stringify` escaping of one character inside a string. -/
def jsonEscapeChar (c : Char) : List Char :=
  if c = '"' then ['\\', '"']
  else if c = '\\' then ['\\', '\\']
  else if c = '\x08' then ['\\', 'b']
  else if c = '\t' then ['\\', 't']
  else if c = '\n' then ['\\', 'n']
  else if c = '\x0c' then ['\\', 'f']
  else if c = '\r' then ['\\', 'r']
  else if c.toNat < 32 then
    ['\\', 'u', '0', '0', hexDigit (c.toNat / 16), hexDigit (c.toNat % 16)]
  else [c]

/-- `JSON.stringify` of a string. -/
def jsonStringifyStr (l : List Char) : List Char :=
  '"' :: (l.flatMap jsonEscapeChar) ++ ['"']

/-- `JSON.stringify` of a list of strings. -/
def jsonStringifyList (items : List (List Char)) : List Char :=
  '[' :: (List.intercalate [','] (items.map jsonStringifyStr)) ++ [']']

/-- JS `String.prototype.split` on a single character
(`"".split(c) = [""]`). -/
def splitOnChar (c : Char) : List Char → List (List Char)
  | [] => [[]]
  | x :: xs =>
    let r := splitOnChar c xs
    if x = c then [] :: r
    else
      match r with
      | [] => [[x]]
      | h :: t => (x :: h) :: t

/-- The mutable locals of `parseSimpleYaml`'s loop; `result` models the JS
object as an insertion-ordered association list. -/
structure YamlAcc where
  result : List (List Char × List Char)
  currentKey : Option (List Char)
  listValues : List (List Char)
deriving DecidableEq

/-- JS object assignment `result[key] = value`: overwrite in place if the key
exists, else append. -/
def objSet (m : List (List Char × List Char)) (k v : List Char) :
    List (List Char × List Char) :=
  if (m.lookup k).isSome then
    m.map (fun p => if p.1 = k then (k, v) else p)
  else m ++ [(k, v)]

/-- One iteration of `parseSimpleYaml`'s `for (const line of block.split("\n"))`
loop. -/
def yamlLine (acc : YamlAcc) (line : List Char) : YamlAcc :=
  let trimmed := trimL line
  if trimmed = [] then acc
  else if startsWithL ['-', ' '] trimmed ∧ acc.currentKey.isSome then
    { acc with listValues := acc.listValues ++ [trimL (trimmed.drop 2)] }
  else
    let acc1 :=
      match acc.currentKey with
      | some k =>
        if acc.listValues.length > 0 then
          { acc with
            result := objSet acc.result k (jsonStringifyList acc.listValues)
            listValues := [] }
        else acc
      | none => acc
    match idxOfChar ':' trimmed with
    | some colonIdx =>
      if colonIdx > 0 then
        let key := trimL (trimmed.take colonIdx)
        let value := trimL (trimmed.drop (colonIdx + 1))
        if value ≠ [] then
          if startsWithL ['['] value ∧ value.getLast? = some ']' then
            let inner := (value.drop 1).dropLast
            let items := ((splitOnChar ',' inner).map trimL).filter (· ≠ [])
            { acc1 with
              result := objSet acc1.result key (jsonStringifyList items)
              currentKey := none }
          else
            { acc1 with
              result := objSet acc1.result key
                (if value = cs "null" then [] else value)
              currentKey := none }
        else { acc1 with currentKey := some key }
      else acc1
    | none => acc1

/-- `parseSimpleYaml(block)` — the whole loop plus the trailing-list flush. -/
def parseSimpleYaml (block : List Char) : List (List Char × List Char) :=
  let acc := (splitOnChar '\n' block).foldl yamlLine ⟨[], none, []⟩
  match acc.currentKey with
  | some k =>
    if acc.listValues.length > 0 then
      objSet acc.result k (jsonStringifyList acc.listValues)
    else acc.result
  | none => acc.result

/-! ## Intent classifier (`auto.ts`)

The classifier's regular expressions are embedded as explicit matchers.
Each matcher follows the corresponding regex literally; `\s*` / `\s+` /
`\d+` / `.*` are deterministic here because in every pattern the token that
follows a repetition cannot match a character the repetition consumes, so
greedy matching without backtracking is exact.  Case-insensitive matching
is modelled by ASCII lowercasing (the patterns' letters are ASCII). -/

/-- Case-insensitive `startsWith`. -/
def startsWithCI (pat l : List Char) : Bool :=
  startsWithL (lowerL pat) (lowerL l)

/-- Case-insensitive first occurrence of `pat` in `hay`. -/
def findSubCI (hay pat : List Char) : Option Nat :=
  findSubL (lowerL hay) (lowerL pat)

/-- Remove the first case-insensitive occurrence of `pat`
(JS `hay.replace(new RegExp(pat, "i"), "")` for a literal pattern). -/
def removeFirstCI (hay pat : List Char) : List Char :=
  match findSubCI hay pat with
  | some i => hay.take i ++ hay.drop (i + pat.length)
  | none => hay

/-- Consume a case-insensitive literal prefix. -/
def dropCI (pat l : List Char) : Option (List Char) :=
  if startsWithCI pat l then some (l.drop pat.length) else none

/-- The intent union of `auto.ts` (`continue` is `cont` here). -/
inductive Intent
  | query
  | approve (note : Option (List Char))
  | reject (reason : Reason) (note : Option (List Char))
  | start_story (storyId : List Char)
  | cont
  | detect
  | list
  | custom (instruction : List Char)
deriving DecidableEq

/-- `/^(approve|核准|lgtm|通過|approved|ok\s*$)/i.test(msg)`. -/
def testApprove (msg : List Char) : Bool :=
  startsWithCI (cs "approve") msg || startsWithCI (cs "核准") msg ||
  startsWithCI (cs "lgtm") msg || startsWithCI (cs "通過") msg ||
  startsWithCI (cs "approved") msg ||
  (startsWithCI (cs "ok") msg ∧ (msg.drop 2).all isJsWs)

/-- Strip the leftmost matching alternative and the following whitespace
(`msg.replace(/^(alt1|...)\s*_/i, "")` for literal alternatives; JS tries the
alternatives left to right and `replace` leaves the string unchanged when
none matches). -/
def stripAltWs (alts : List (List Char)) (msg : List Char) : List Char :=
  match alts.find? (fun a => startsWithCI a msg) with
  | some a => (msg.drop a.length).dropWhile isJsWs
  | none => msg

/-- The note of an approve message:
`msg.replace(/^(approve|核准|lgtm|通過|approved|ok)\s*_/i, "").trim() || undefined`. -/
def approveNote (msg : List Char) : Option (List Char) :=
  let n := trimL (stripAltWs
    [cs "approve", cs "核准", cs "lgtm", cs "通過", cs "approved", cs "ok"] msg)
  if n = [] then none else some n

/-- `/^(reject|退回|不行|rejected)/i.test(msg)`. -/
def testReject (msg : List Char) : Bool :=
  startsWithCI (cs "reject") msg || startsWithCI (cs "退回") msg ||
  startsWithCI (cs "不行") msg || startsWithCI (cs "rejected") msg

/-- The remainder of a reject message:
`msg.replace(/^(reject|退回|不行|rejected)\s*_/i, "").trim()`. -/
def rejectRest (msg : List Char) : List Char :=
  trimL (stripAltWs [cs "reject", cs "退回", cs "不行", cs "rejected"] msg)

/-- `extractRejectReason`'s `reasonMap`, in `Object.entries` order. -/
def rejectReasonMap : List (List Char × Reason) :=
  [(cs "clarification", .needs_clarification),
   (cs "需要說明", .needs_clarification),
   (cs "不清楚", .needs_clarification),
   (cs "constitution", .constitution_violation),
   (cs "架構違反", .constitution_violation),
   (cs "scope", .scope_warning),
   (cs "範圍", .scope_warning),
   (cs "nfr", .nfr_missing),
   (cs "timeout", .test_timeout),
   (cs "超時", .test_timeout)]

/-- `extractRejectReason(rest)`. -/
def extractRejectReason (rest : List Char) : Reason × Option (List Char) :=
  match rejectReasonMap.find? (fun p => containsSubL (lowerL rest) p.1) with
  | some kr =>
    let note := trimL (removeFirstCI rest kr.1)
    (kr.2, if note = [] then none else some note)
  | none =>
    (.needs_clarification, if rest = [] then none else some rest)

/-- `\s+(US-\d+)` at the current position: at least one whitespace character,
then the captured id (case-insensitive `US-`, then one or more digits; the
capture keeps the original characters). -/
def usIdAt (l : List Char) : Option (List Char) :=
  if (l.head?.map isJsWs).getD false then
    let r := l.dropWhile isJsWs
    if startsWithCI (cs "US-") r then
      let digits := (r.drop 3).takeWhile Char.isDigit
      if digits.length > 0 then some (r.take 3 ++ digits) else none
    else none
  else none

/-- The lead alternatives `(?:start\s*story|開始\s*story|開新\s*story|start)`
tried at one position, in regex order; each yields the remainder after the
alternative. -/
def storyLeadAlts (l : List Char) : List (Option (List Char)) :=
  [(dropCI (cs "start") l).bind (fun r => dropCI (cs "story") (r.dropWhile isJsWs)),
   (dropCI (cs "開始") l).bind (fun r => dropCI (cs "story") (r.dropWhile isJsWs)),
   (dropCI (cs "開新") l).bind (fun r => dropCI (cs "story") (r.dropWhile isJsWs)),
   dropCI (cs "start") l]

/-- Try the full pattern at one position: some lead alternative, then
`\s+(US-\d+)`; a failing tail falls back to the next alternative. -/
def storyMatchAt (l : List Char) : Option (List Char) :=
  ((storyLeadAlts l).filterMap (fun o => o.bind usIdAt)).head?

/-- Leftmost match of the first story regex. -/
def scanStory : List Char → Option (List Char)
  | [] => none
  | x :: xs =>
    match storyMatchAt (x :: xs) with
    | some c => some c
    | none => scanStory xs

/-- `msg.match(/(?:start\s*story|開始\s*story|開新\s*story|start)\s+(US-\d+)/i)
|| msg.match(/^(US-\d+)/i)` — the captured story id, if any. -/
def storyMatch (msg : List Char) : Option (List Char) :=
  match scanStory msg with
  | some c => some c
  | none =>
    if startsWithCI (cs "US-") msg then
      let digits := (msg.drop 3).takeWhile Char.isDigit
      if digits.length > 0 then some (msg.take 3 ++ digits) else none
    else none

/-- JS `includes` used as a regex of a literal. -/
def hasSub (hay pat : List Char) : Bool := containsSubL hay pat

/-- `/a\s*b/` at the current position. -/
def wsStarPairAt (a b l : List Char) : Bool :=
  startsWithL a l ∧ startsWithL b ((l.drop a.length).dropWhile isJsWs)

/-- `/a\s*b/.test(l)` for literals `a`, `b` (with `b` starting in a
non-whitespace character). -/
def hasWsStarPair (a b l : List Char) : Bool :=
  (List.range (l.length + 1)).any (fun i => wsStarPairAt a b (l.drop i))

/-- `/a.*b/` at the current position (`.` excludes line terminators). -/
def dotStarPairAt (a b l : List Char) : Bool :=
  startsWithL a l ∧
    (let rest := l.drop a.length
     (List.range (rest.length + 1)).any (fun j =>
       startsWithL b (rest.drop j) ∧ (rest.take j).all (fun c => c ≠ '\n' ∧ c ≠ '\r')))

/-- `/a.*b/.test(l)` for literals `a`, `b`. -/
def hasDotStarPair (a b l : List Char) : Bool :=
  (List.range (l.length + 1)).any (fun i => dotStarPairAt a b (l.drop i))

/-- `isQuery(lower)` — the ordered pattern list, tested on the lowercased
message. -/
def isQuery (lower : List Char) : Bool :=
  hasSub lower (cs "狀態") || hasSub lower (cs "status") ||
  hasSub lower (cs "什麼步驟") ||
  hasWsStarPair (cs "what") (cs "step") lower ||
  hasWsStarPair (cs "which") (cs "step") lower ||
  hasSub lower (cs "測試") || hasSub lower (cs "test") ||
  hasSub lower (cs "進度") || hasSub lower (cs "progress") ||
  hasSub lower (cs "還有什麼") ||
  hasWsStarPair (cs "what's") (cs "next") lower ||
  hasWsStarPair (cs "what") (cs "next") lower ||
  hasWsStarPair (cs "what's") (cs "left") lower ||
  hasSub lower (cs "history") || hasSub lower (cs "歷史") ||
  hasSub lower (cs "上次") ||
  hasWsStarPair (cs "last") (cs "session") lower ||
  hasWsStarPair (cs "last") (cs "time") lower ||
  hasSub lower (cs "怎麼樣") ||
  hasDotStarPair (cs "how") (cs "project") lower ||
  hasDotStarPair (cs "how") (cs "going") lower ||
  hasSub lower (cs "目前") || hasSub lower (cs "current") ||
  hasSub lower (cs "看一下") || hasSub lower (cs "看看") ||
  hasSub lower (cs "查一下") ||
  hasWsStarPair (cs "check") (cs "status") lower ||
  hasSub lower (cs "哪個步驟") || hasSub lower (cs "卡住") ||
  hasSub lower (cs "blocked") ||
  hasDotStarPair (cs "why") (cs "block") lower ||
  hasSub lower (cs "summary") || hasSub lower (cs "摘要") ||
  hasSub lower (cs "report") || hasSub lower (cs "報告") ||
  hasSub lower (cs "打開") ||
  hasWsStarPair (cs "open") (cs "project") lower

/-- `/列出|list.*project|所有專案|all\s*projects/i.test(lower)`. -/
def testList (lower : List Char) : Bool :=
  hasSub lower (cs "列出") ||
  hasDotStarPair (cs "list") (cs "project") lower ||
  hasSub lower (cs "所有專案") ||
  hasWsStarPair (cs "all") (cs "projects") lower

/-- `/framework|有沒有用|adoption|detect/i.test(lower)`. -/
def testDetect (lower : List Char) : Bool :=
  hasSub lower (cs "framework") || hasSub lower (cs "有沒有用") ||
  hasSub lower (cs "adoption") || hasSub lower (cs "detect")

/-- `/^(繼續|continue|dispatch|next|下一步|run|執行|go|proceed)\s*$/i.test(msg)`. -/
def testContinue (msg : List Char) : Bool :=
  [cs "繼續", cs "continue", cs "dispatch", cs "next", cs "下一步",
   cs "run", cs "執行", cs "go", cs "proceed"].any
    (fun a => startsWithCI a msg ∧ (msg.drop a.length).all isJsWs)

/-- `classify(message)` — the if-chain of `auto.ts`, embedded verbatim. -/
def classify (message : List Char) : Intent :=
  let msg := trimL message
  let lower := lowerL msg
  if testApprove msg then .approve (approveNote msg)
  else if testReject msg then
    let rn := extractRejectReason (rejectRest msg)
    .reject rn.1 rn.2
  else
    match storyMatch msg with
    | some sid => .start_story sid
    | none =>
      if testList lower then .list
      else if testDetect lower then .detect
      else if isQuery lower then .query
      else if testContinue msg then .cont
      else .custom msg

/-- The ordered rule list of the classifier, as the spec describes it: each
rule pairs the match test with the intent it produces; rules are evaluated
top to bottom and the first match wins. -/
def classifierRules : List ((List Char → Bool) × (List Char → Intent)) :=
  [(testApprove, fun m => .approve (approveNote m)),
   (testReject, fun m => .reject (extractRejectReason (rejectRest m)).1
      (extractRejectReason (rejectRest m)).2),
   (fun m => (storyMatch m).isSome,
    fun m => .start_story ((storyMatch m).getD [])),
   (fun m => testList (lowerL m), fun _ => .list),
   (fun m => testDetect (lowerL m), fun _ => .detect),
   (fun m => isQuery (lowerL m), fun _ => .query),
   (testContinue, fun _ => .cont)]

/-- First-match evaluation of an ordered rule list, with the free-text
custom-task catch-all when no rule matches. -/
def firstMatch : List ((List Char → Bool) × (List Char → Intent)) →
    List Char → Intent
  | [], m => .custom m
  | r :: rest, m => if r.1 m then r.2 m else firstMatch rest m

/-- The classifier as the spec words it: the fixed, ordered rule list
applied to the trimmed message, falling through to the catch-all. -/
def classifySpec (message : List Char) : Intent :=
  firstMatch classifierRules (trimL message)

/-! ## Basic facts about the embedded definitions -/

theorem mem_step (st : Step) : st ∈ VALID_STEPS := by
  cases st <;> simp [VALID_STEPS]

theorem mem_status (st : Status) : st ∈ VALID_STATUSES := by
  cases st <;> simp [VALID_STATUSES]

theorem mem_reason (r : Reason) : r ∈ VALID_REASONS := by
  cases r <;> simp [VALID_REASONS]

theorem validate_ok (s : State) (h1 : s.project ≠ "") (h2 : 0 ≤ s.attempt)
    (h3 : 1 ≤ s.max_attempts) : validate s = .ok () := by
  have h2' : ¬ s.attempt < 0 := by omega
  have h3' : ¬ s.max_attempts < 1 := by omega
  unfold validate validateCounts
  cases hr : s.reason <;>
    simp [mem_step, mem_status, mem_reason, h1, h2', h3']

theorem writeState_ok (s : State) (h1 : s.project ≠ "") (h2 : 0 ≤ s.attempt)
    (h3 : 1 ≤ s.max_attempts) : writeState s = .ok s := by
  unfold writeState
  rw [validate_ok s h1 h2 h3]

theorem validate_fields (s : State) (h : validate s = .ok ()) :
    s.project ≠ "" ∧ 0 ≤ s.attempt ∧ 1 ≤ s.max_attempts := by
  unfold validate validateCounts at h
  by_cases h1 : s.project = ""
  · simp [h1] at h
  · refine ⟨h1, ?_, ?_⟩ <;>
      cases hr : s.reason <;>
        rw [hr] at h <;>
          simp [mem_step, mem_status, mem_reason, h1] at h <;>
            split_ifs at h <;> omega

theorem getRule_ne_done {st : Step} {r : StepRule} (h : getRule st = .ok r) :
    st ≠ .done := by
  cases st <;> simp_all [getRule]

theorem getRule_max_pos {st : Step} {r : StepRule} (h : getRule st = .ok r) :
    1 ≤ r.max_attempts := by
  cases st <;> simp [getRule] at h <;> rw [← h] <;> decide

theorem getRule_ok_of_ne_done {st : Step} (h : st ≠ .done) :
    ∃ r, getRule st = .ok r := by
  cases st <;> simp_all [getRule]

/-! ## Claim theorems -/

/-- **C9.** The state validator accepts `attempt = 0`: for every state with a
valid step/status/reason (all representable values are valid), a non-empty
project and `max_attempts ≥ 1`, `validate` returns normally when
`attempt = 0` — and `writeState` commits such a state — and `validate`
raises the attempt-field error exactly when `attempt` is strictly negative,
so the documented 1-indexed lower bound on `attempt` is not enforced. -/
theorem C9_validate_accepts_attempt_zero (s : State)
    (hp : s.project ≠ "") (hm : 1 ≤ s.max_attempts) :
    (s.attempt = 0 → validate s = .ok () ∧ writeState s = .ok s) ∧
    (0 ≤ s.attempt → validate s = .ok ()) ∧
    (s.attempt < 0 →
      validate s = .error ("attempt must be >= 0, got " ++ toString s.attempt)) := by
  refine ⟨fun h0 => ?_, fun hge => validate_ok s hp hge hm, fun hlt => ?_⟩
  · have hge : 0 ≤ s.attempt := by omega
    exact ⟨validate_ok s hp hge hm, writeState_ok s hp hge hm⟩
  · unfold validate validateCounts
    cases hr : s.reason <;>
      simp [hlt, hp, mem_step, mem_status, mem_reason]

/-- Witness for C9: the concrete initial state with `attempt := 0` passes
validation and is committed by `writeState`. -/
theorem C9_witness :
    validate { createInitialState "app" with attempt := 0 } = .ok () ∧
    writeState { createInitialState "app" with attempt := 0 } =
      .ok { createInitialState "app" with attempt := 0 } :=
  (C9_validate_accepts_attempt_zero { createInitialState "app" with attempt := 0 }
    (by decide) (by decide)).1 rfl

/-- **C5.** `approveReview` and `rejectReview` throw (and, the throw coming
before any `writeState`, commit nothing) whenever the current step is not the
`review` human-checkpoint step; at the `review` step, approve commits
`status = pass` with the optional note in `human_note`, and reject commits
`status = failing` with the given reason and optional note. -/
theorem C5_review_gate (s : State) (note : Option String) (r : Reason)
    (hv : validate s = .ok ()) :
    (s.step ≠ .review →
      approveReview s note =
        .error ("Cannot approve review: current step is \"" ++ stepName s.step
          ++ "\", not \"review\"") ∧
      rejectReview s r note =
        .error ("Cannot reject review: current step is \"" ++ stepName s.step
          ++ "\", not \"review\"")) ∧
    (s.step = .review →
      approveReview s note =
        .ok { s with status := .pass, human_note := note } ∧
      rejectReview s r note =
        .ok { s with status := .failing, reason := some r, human_note := note }) := by
  obtain ⟨h1, h2, h3⟩ := validate_fields s hv
  constructor
  · intro hne
    constructor
    · unfold approveReview; rw [if_pos hne]
    · unfold rejectReview; rw [if_pos hne]
  · intro heq
    constructor
    · unfold approveReview; rw [if_neg (by simp [heq])]
      exact writeState_ok _ h1 h2 h3
    · unfold rejectReview; rw [if_neg (by simp [heq])]
      exact writeState_ok _ h1 h2 h3

/-- Witness for C5: at a concrete `review`-step state the two mutators
commit the approve/reject updates, and at a concrete `impl`-step state both
throw. -/
theorem C5_witness :
    (approveReview { createInitialState "app" with step := .review } (some "n") =
      .ok { createInitialState "app" with
            step := .review, status := .pass, human_note := some "n" }) ∧
    (approveReview { createInitialState "app" with step := .impl } none =
      .error "Cannot approve review: current step is \"impl\", not \"review\"") :=
  ⟨((C5_review_gate { createInitialState "app" with step := .review }
      (some "n") .needs_clarification rfl).2 rfl).1,
   by
    have := ((C5_review_gate { createInitialState "app" with step := .impl }
      none .needs_clarification rfl).1 (by decide)).1
    simpa using this⟩

/-- **C6.** When `applyHandoff` finds no report at all it raises no error:
it commits the state with `status = failing`, `reason = null` and a stamped
completion timestamp, and returns that state. -/
theorem C6_crash_inference (s : State) (now : Int)
    (hv : validate s = .ok ()) :
    applyHandoff s none now =
      .ok { s with
            status := .failing, reason := none, completed_at := some now } := by
  obtain ⟨h1, h2, h3⟩ := validate_fields s hv
  unfold applyHandoff
  exact writeState_ok _ h1 h2 h3

/-- **C1.** For a persisted state at a non-terminal (`getRule` succeeds),
non-human-checkpoint step with status `failing` whose failure route for
`(step, reason)` is the step itself: while `attempt < max_attempts`, one
`dispatch` call commits exactly `attempt + 1` (status `running`) and returns
`dispatched` with attempt `attempt + 1`; once `attempt ≥ max_attempts`, the
decide call commits `status = needs_human` and returns `blocked` — that
decision is a `blocked` outcome, not a further dispatch at the step. -/
theorem C1_attempt_monotonicity (now fwLv : Int) (s : State) (rule : StepRule)
    (hv : validate s = .ok ())
    (hr : getRule s.step = .ok rule)
    (hh : rule.requires_human = false)
    (hf : s.status = .failing)
    (ht : getFailTarget s.step s.reason = .ok s.step) :
    (s.attempt < s.max_attempts →
      _dispatch false now fwLv s =
        .ok (.dispatched s.step (s.attempt + 1)
              (buildPrompt { s with
                  attempt := s.attempt + 1, status := .pending } rule) fwLv,
             [markRunning now { s with
                attempt := s.attempt + 1, status := .pending }])) ∧
    (s.max_attempts ≤ s.attempt →
      _dispatch false now fwLv s =
        .ok (.blocked s.step (blockedReason { s with status := .needs_human }),
             [{ s with status := .needs_human }])) := by
  obtain ⟨h1, h2, h3⟩ := validate_fields s hv
  have hnd : s.step ≠ .done := getRule_ne_done hr
  constructor
  · intro hlt
    have hmax : isMaxedOut s = false := by
      simp only [isMaxedOut, decide_eq_false_iff_not, not_le]; omega
    have hw : writeState (markRunning now
        { s with attempt := s.attempt + 1, status := Status.pending }) =
        .ok (markRunning now
          { s with attempt := s.attempt + 1, status := Status.pending }) :=
      writeState_ok _ h1 (by show (0 : Int) ≤ s.attempt + 1; omega) h3
    unfold _dispatch dispatchExec
    simp [if_neg hnd, hr, hf, hh, hmax, ht, hw]
  · intro hge
    have hmax : isMaxedOut s = true := by
      simp only [isMaxedOut, decide_eq_true_eq]; omega
    have hw : writeState { s with status := Status.needs_human } =
        .ok { s with status := Status.needs_human } :=
      writeState_ok _ h1 h2 h3
    unfold _dispatch
    simp [if_neg hnd, hr, hf, hh, hmax, hw]

/-- Witness for C1 at a concrete `impl` state (`attempt 2 < max_attempts 5`),
and at the same state with `attempt = 5` for the blocked half. -/
theorem C1_witness :
    (_dispatch false 0 0 { createInitialState "app" with
        step := .impl, status := .failing, attempt := 2, max_attempts := 5 } =
      .ok (.dispatched Step.impl 3
            (buildPrompt { createInitialState "app" with
               step := .impl, status := .pending, attempt := 3,
               max_attempts := 5 } implRule) 0,
           [markRunning 0 { createInitialState "app" with
              step := .impl, status := .pending, attempt := 3,
              max_attempts := 5 }])) ∧
    (_dispatch false 0 0 { createInitialState "app" with
        step := .impl, status := .failing, attempt := 5, max_attempts := 5 } =
      .ok (.blocked Step.impl
            (blockedReason { createInitialState "app" with
               step := .impl, status := .needs_human, attempt := 5,
               max_attempts := 5 }),
           [{ createInitialState "app" with
              step := .impl, status := .needs_human, attempt := 5,
              max_attempts := 5 }])) :=
  ⟨(C1_attempt_monotonicity 0 0 { createInitialState "app" with
      step := .impl, status := .failing, attempt := 2, max_attempts := 5 }
      implRule rfl rfl rfl rfl rfl).1 (by norm_num),
   (C1_attempt_monotonicity 0 0 { createInitialState "app" with
      step := .impl, status := .failing, attempt := 5, max_attempts := 5 }
      implRule rfl rfl rfl rfl rfl).2 (by norm_num)⟩

/-- **C4 counterexample.** The claim fails at the human-checkpoint step: the
concrete persisted state (`review`, `failing`, `reason needs_clarification`,
`attempt 1 < max_attempts 3`) satisfies every premise — its failure route
`bdd` differs from `review` — yet decide returns `needs_human` and commits
the state still at step `review` (no jump, no adoption of `bdd`'s limits). -/
theorem C4_counterexample :
    getFailTarget Step.review (some Reason.needs_clarification) = .ok Step.bdd ∧
    Step.bdd ≠ Step.review ∧
    _dispatch false 0 0 { createInitialState "app" with
        step := .review, status := .failing, attempt := 1, max_attempts := 3,
        reason := some .needs_clarification } =
      .ok (.needs_human Step.review
            (formatReviewRequest { createInitialState "app" with
               step := .review, status := .needs_human, attempt := 1,
               max_attempts := 3, reason := some .needs_clarification }),
           [{ createInitialState "app" with
              step := .review, status := .needs_human, attempt := 1,
              max_attempts := 3, reason := some .needs_clarification }]) :=
  ⟨rfl, by decide, rfl⟩

/-- **C4 (amended).** Whenever decide processes a state with status
`failing`, `attempt < max_attempts`, and a failure-route target differing
from the current step, *at a step whose rule does not require a human
checkpoint* (the human-checkpoint branch otherwise intercepts the failing
state first), the state jumps to the target with `attempt` exactly 1 —
regardless of the prior attempt count — and adopts the target step's
`max_attempts` and `timeout_min`. -/
theorem C4_reroute_resets_attempt (now fwLv : Int) (s : State)
    (rule targetRule : StepRule) (target : Step)
    (hv : validate s = .ok ())
    (hr : getRule s.step = .ok rule)
    (hh : rule.requires_human = false)
    (hf : s.status = .failing)
    (hlt : s.attempt < s.max_attempts)
    (ht : getFailTarget s.step s.reason = .ok target)
    (hne : target ≠ s.step)
    (htr : getRule target = .ok targetRule) :
    _dispatch false now fwLv s =
      .ok (.dispatched target 1
            (buildPrompt { s with
                step := target, attempt := 1,
                max_attempts := targetRule.max_attempts,
                timeout_min := targetRule.timeout_min,
                status := .pending } targetRule) fwLv,
           [markRunning now { s with
              step := target, attempt := 1,
              max_attempts := targetRule.max_attempts,
              timeout_min := targetRule.timeout_min,
              status := .pending }]) := by
  obtain ⟨h1, h2, h3⟩ := validate_fields s hv
  have hnd : s.step ≠ .done := getRule_ne_done hr
  have hmax : isMaxedOut s = false := by
    simp only [isMaxedOut, decide_eq_false_iff_not, not_le]; omega
  have hw : writeState (markRunning now
      { s with
        step := target, attempt := 1,
        max_attempts := targetRule.max_attempts,
        timeout_min := targetRule.timeout_min, status := Status.pending }) =
      .ok (markRunning now
        { s with
          step := target, attempt := 1,
          max_attempts := targetRule.max_attempts,
          timeout_min := targetRule.timeout_min, status := Status.pending }) :=
    writeState_ok _ h1 (by show (0 : Int) ≤ 1; norm_num) (getRule_max_pos htr)
  unfold _dispatch dispatchExec
  simp [if_neg hnd, hr, hf, hh, hmax, ht, hne, htr, hw]

/-- Witness for C4 (amended): `impl` failing with `constitution_violation`
reroutes to `sdd-delta` with attempt 1 and `sdd-delta`'s limits (3 attempts,
5 minutes). -/
theorem C4_witness :
    _dispatch false 0 0 { createInitialState "app" with
        step := .impl, status := .failing, attempt := 4, max_attempts := 5,
        reason := some .constitution_violation } =
      .ok (.dispatched Step.sddDelta 1
            (buildPrompt { createInitialState "app" with
               step := .sddDelta, status := .pending, attempt := 1,
               max_attempts := 3, timeout_min := 5,
               reason := some .constitution_violation } sddDeltaRule) 0,
           [markRunning 0 { createInitialState "app" with
              step := .sddDelta, status := .pending, attempt := 1,
              max_attempts := 3, timeout_min := 5,
              reason := some .constitution_violation }]) :=
  C4_reroute_resets_attempt 0 0 { createInitialState "app" with
      step := .impl, status := .failing, attempt := 4, max_attempts := 5,
      reason := some .constitution_violation }
    implRule sddDeltaRule Step.sddDelta
    rfl rfl rfl rfl (by norm_num) rfl (by decide) rfl

/-- **C2 counterexample.** The claim fails on the code: after the first
decide call applies the timeout transition, the committed state has
`status = "timeout"`, and a second decide call on that exact state falls
through every guard and *re-dispatches* the step — its outcome tag is
`dispatched`, not an `already_running`-style terminal. -/
theorem C2_counterexample :
    _dispatch false 900000 0 { createInitialState "app" with
        step := .impl, status := .running, dispatched_at := some 0,
        timeout_min := 10, attempt := 2, max_attempts := 5 } =
      .ok (.timeout Step.impl 15,
           [{ createInitialState "app" with
              step := .impl, status := .timeout, dispatched_at := some 0,
              completed_at := some 900000, timeout_min := 10, attempt := 2,
              max_attempts := 5 }]) ∧
    (_dispatch false 901000 0 { createInitialState "app" with
        step := .impl, status := .timeout, dispatched_at := some 0,
        completed_at := some 900000, timeout_min := 10, attempt := 2,
        max_attempts := 5 }).map (fun r => resultTag r.1) =
      .ok "dispatched" ∧
    "dispatched" ≠ "already_running" :=
  ⟨rfl, rfl, by decide⟩

/-- **C2 (amended).** A `running` state whose dispatch timestamp is older
than its timeout budget, decided once, transitions to `timeout` (committed,
`TimedOut` returned); decided again immediately after, on the committed
state, the timeout transition is **not** repeated — at a non-human-checkpoint
step the call falls through every guard and performs a fresh dispatch of the
same step with the attempt count unchanged. -/
theorem C2_timeout_then_redispatch (now1 now2 fwLv1 fwLv2 : Int) (s : State)
    (rule : StepRule)
    (hv : validate s = .ok ())
    (hr : getRule s.step = .ok rule)
    (hrun : s.status = .running)
    (hto : isTimedOut now1 s = true)
    (hh : rule.requires_human = false) :
    _dispatch false now1 fwLv1 s =
      .ok (.timeout s.step (elapsedMinutes now1 (s.dispatched_at.getD 0)),
           [{ s with status := .timeout, completed_at := some now1 }]) ∧
    _dispatch false now2 fwLv2
        { s with status := .timeout, completed_at := some now1 } =
      .ok (.dispatched s.step s.attempt
            (buildPrompt { s with
                status := .timeout, completed_at := some now1 } rule) fwLv2,
           [markRunning now2 { s with
              status := .timeout, completed_at := some now1 }]) := by
  obtain ⟨h1, h2, h3⟩ := validate_fields s hv
  have hnd : s.step ≠ .done := getRule_ne_done hr
  constructor
  · have hw : writeState { s with
        status := Status.timeout, completed_at := some now1 } =
        .ok { s with status := Status.timeout, completed_at := some now1 } :=
      writeState_ok _ h1 h2 h3
    unfold _dispatch
    simp [if_neg hnd, hr, hrun, hto, hw]
  · have hw : writeState (markRunning now2
        { s with
          status := Status.timeout, completed_at := some now1 }) =
        .ok (markRunning now2
          { s with status := Status.timeout, completed_at := some now1 }) :=
      writeState_ok _ h1 h2 h3
    unfold _dispatch dispatchExec
    simp [if_neg hnd, hr, hh, hw]

/-- Witness for C2 (amended) at the concrete state of the counterexample. -/
theorem C2_witness :
    _dispatch false 900000 0 { createInitialState "app" with
        step := .impl, status := .running, dispatched_at := some 0,
        timeout_min := 10, attempt := 2, max_attempts := 5 } =
      .ok (.timeout Step.impl 15,
           [{ createInitialState "app" with
              step := .impl, status := .timeout, dispatched_at := some 0,
              completed_at := some 900000, timeout_min := 10, attempt := 2,
              max_attempts := 5 }]) :=
  (C2_timeout_then_redispatch 900000 901000 0 0
    { createInitialState "app" with
      step := .impl, status := .running, dispatched_at := some 0,
      timeout_min := 10, attempt := 2, max_attempts := 5 }
    implRule rfl rfl rfl (by decide) rfl).1

/-- **C10.** `isTimedOut` is false whenever the status is not `running` or
the dispatch timestamp is null; consequently a decide call on a `running`
state with no dispatch timestamp never applies the timeout transition — at a
non-terminal step it returns `already_running` without committing anything
(the elapsed figure is computed from the JS `new Date(null)` epoch value 0),
and at the terminal step it returns the `done` outcome, also without
committing. -/
theorem C10_no_timeout_without_timestamp (now fwLv : Int) (s : State) :
    ((s.status ≠ .running ∨ s.dispatched_at = none) →
      isTimedOut now s = false) ∧
    (s.status = .running → s.dispatched_at = none → s.step ≠ .done →
      _dispatch false now fwLv s =
        .ok (.already_running s.step (elapsedMinutes now 0), [])) ∧
    (s.status = .running → s.dispatched_at = none → s.step = .done →
      _dispatch false now fwLv s =
        .ok (.done (s.story.getD "(no story)")
              ("Story " ++ jsStr s.story ++ " completed."), [])) := by
  refine ⟨fun h => ?_, fun hrun hda hnd => ?_, fun hrun hda hd => ?_⟩
  · unfold isTimedOut
    rcases h with h | h
    · simp [h]
    · simp [h]
  · obtain ⟨rule, hrule⟩ := getRule_ok_of_ne_done hnd
    have hto : isTimedOut now s = false := by
      unfold isTimedOut; simp [hda]
    unfold _dispatch
    simp [if_neg hnd, hrule, hrun, hto, hda]
  · unfold _dispatch
    simp [hd]

/-- Witness for C10: a concrete running `impl` state with a null
`dispatched_at` is reported `already_running`, not timed out. -/
theorem C10_witness :
    isTimedOut 100000000 { createInitialState "app" with
      step := .impl, status := .running, timeout_min := 10 } = false ∧
    _dispatch false 100000000 0 { createInitialState "app" with
        step := .impl, status := .running, timeout_min := 10 } =
      .ok (.already_running Step.impl (elapsedMinutes 100000000 0), []) :=
  ⟨(C10_no_timeout_without_timestamp 100000000 0 _).1 (Or.inr rfl),
   (C10_no_timeout_without_timestamp 100000000 0 _).2.1 rfl rfl (by decide)⟩

theorem formatReviewRequest_status (s : State) (st : Status) :
    formatReviewRequest { s with status := st } = formatReviewRequest s := rfl

theorem getFailTarget_ok {st : Step} {rule : StepRule}
    (h : getRule st = .ok rule) (r : Option Reason) :
    ∃ t, getFailTarget st r = .ok t := by
  unfold getFailTarget
  rw [h]
  cases r with
  | none => exact ⟨rule.on_fail_default, rfl⟩
  | some rr =>
    cases hl : rule.on_fail.lookup rr with
    | none =>
      exact ⟨rule.on_fail_default, by simp [hl, bind, Except.bind, pure, Except.pure]⟩
    | some t => exact ⟨t, by simp [hl, bind, Except.bind, pure, Except.pure]⟩

theorem failTarget_ne_done : ∀ (st : Step) (r : Option Reason) (t : Step),
    getFailTarget st r = .ok t → t ≠ .done := by decide

/-- **C3.** For every persisted (validated) state, the read-only preview
`peek` raises no error and commits nothing — the persisted document is
untouched in every branch, so two preview calls in a row yield the identical
outcome — and its outcome is identical to the outcome the mutating
`dispatch` call computes on the same state at the same instant. -/
theorem C3_idempotent_preview (now fwLv : Int) (s : State)
    (hv : validate s = .ok ()) :
    ∃ r ws, peek now fwLv s = .ok (r, ([] : List State)) ∧
            dispatch now fwLv s = .ok (r, ws) := by
  obtain ⟨h1, h2, h3⟩ := validate_fields s hv
  unfold peek dispatch
  by_cases hd : s.step = Step.done
  · refine ⟨.done (s.story.getD "(no story)")
      ("Story " ++ jsStr s.story ++ " completed."), [], ?_, ?_⟩ <;>
      · unfold _dispatch
        simp [hd]
  obtain ⟨rule, hrule⟩ := getRule_ok_of_ne_done hd
  by_cases hrun : s.status = Status.running
  · by_cases hto : isTimedOut now s = true
    · have hw := writeState_ok { s with
        status := Status.timeout, completed_at := some now } h1 h2 h3
      refine ⟨.timeout s.step (elapsedMinutes now (s.dispatched_at.getD 0)),
        [{ s with status := Status.timeout, completed_at := some now }],
        ?_, ?_⟩ <;>
        · unfold _dispatch
          simp [hd, hrule, hrun, hto, hw]
    · have hto' : isTimedOut now s = false := by simpa using hto
      refine ⟨.already_running s.step
        (elapsedMinutes now (s.dispatched_at.getD 0)), [], ?_, ?_⟩ <;>
        · unfold _dispatch
          simp [hd, hrule, hrun, hto']
  by_cases hpass : s.status = Status.pass
  · by_cases h1d : rule.next_on_pass = Step.done
    · have hw := writeState_ok { s with
        step := Step.done, attempt := 1, status := Status.pending,
        reason := none, human_note := none, tests := none, failing_tests := [],
        lint_pass := none, files_changed := [] } h1 (by norm_num) h3
      refine ⟨.done (s.story.getD "(no story)")
          ("Story " ++ jsStr s.story ++ " completed. All steps passed."),
        [{ s with
           step := Step.done, attempt := 1, status := Status.pending,
           reason := none, human_note := none, tests := none,
           failing_tests := [], lint_pass := none, files_changed := [] }],
        ?_, ?_⟩ <;>
        · unfold _dispatch
          simp [hd, hrule, hrun, hpass, h1d, hw]
    · obtain ⟨newRule, hnew⟩ := getRule_ok_of_ne_done h1d
      by_cases hreq2 : newRule.requires_human = true
      · have hw := writeState_ok { s with
          step := rule.next_on_pass, attempt := 1, status := Status.needs_human,
          reason := none, human_note := none, tests := none,
          failing_tests := [], lint_pass := none, files_changed := [] }
          h1 (by norm_num) h3
        refine ⟨.needs_human rule.next_on_pass
            (formatReviewRequest { s with
              step := rule.next_on_pass, attempt := 1,
              status := Status.needs_human, reason := none, human_note := none,
              tests := none, failing_tests := [], lint_pass := none,
              files_changed := [] }),
          [{ s with
             step := rule.next_on_pass, attempt := 1,
             status := Status.needs_human, reason := none, human_note := none,
             tests := none, failing_tests := [], lint_pass := none,
             files_changed := [] }], ?_, ?_⟩ <;>
          · unfold _dispatch
            simp [hd, hrule, hrun, hpass, h1d, hnew, hreq2, hw]
      · have hreq2' : newRule.requires_human = false := by simpa using hreq2
        have hw := writeState_ok (markRunning now { s with
          step := rule.next_on_pass, attempt := 1, status := Status.pending,
          reason := none, human_note := none, tests := none,
          failing_tests := [], lint_pass := none, files_changed := [],
          max_attempts := newRule.max_attempts,
          timeout_min := newRule.timeout_min })
          h1 (by show (0 : Int) ≤ 1; norm_num) (getRule_max_pos hnew)
        refine ⟨.dispatched rule.next_on_pass 1
            (buildPrompt { s with
              step := rule.next_on_pass, attempt := 1, status := Status.pending,
              reason := none, human_note := none, tests := none,
              failing_tests := [], lint_pass := none, files_changed := [],
              max_attempts := newRule.max_attempts,
              timeout_min := newRule.timeout_min } newRule) fwLv,
          [markRunning now { s with
             step := rule.next_on_pass, attempt := 1, status := Status.pending,
             reason := none, human_note := none, tests := none,
             failing_tests := [], lint_pass := none, files_changed := [],
             max_attempts := newRule.max_attempts,
             timeout_min := newRule.timeout_min }], ?_, ?_⟩ <;>
          · unfold _dispatch dispatchExec
            simp [hd, hrule, hrun, hpass, h1d, hnew, hreq2', hw]
  by_cases hreq : rule.requires_human = true
  · by_cases hnh : s.status = Status.needs_human
    · refine ⟨.needs_human s.step (formatReviewRequest s), [], ?_, ?_⟩ <;>
        · unfold _dispatch
          simp [hd, hrule, hrun, hpass, hreq, hnh]
    · have hw := writeState_ok { s with status := Status.needs_human } h1 h2 h3
      refine ⟨.needs_human s.step (formatReviewRequest s),
        [{ s with status := Status.needs_human }], ?_, ?_⟩
      · unfold _dispatch
        simp [hd, hrule, hrun, hpass, hreq, hnh]
      · unfold _dispatch
        simp [hd, hrule, hrun, hpass, hreq, hnh, hw, formatReviewRequest_status]
  · have hreq' : rule.requires_human = false := by simpa using hreq
    by_cases hfail : s.status = Status.failing
    · by_cases hmax : isMaxedOut s = true
      · have hw := writeState_ok { s with status := Status.needs_human } h1 h2 h3
        refine ⟨.blocked s.step
            (blockedReason { s with status := Status.needs_human }),
          [{ s with status := Status.needs_human }], ?_, ?_⟩ <;>
          · unfold _dispatch
            simp [hd, hrule, hrun, hpass, hreq', hfail, hmax, hw]
      · have hmax' : isMaxedOut s = false := by simpa using hmax
        obtain ⟨target, htar⟩ := getFailTarget_ok hrule s.reason
        by_cases hts : target = s.step
        · have hw := writeState_ok (markRunning now { s with
            attempt := s.attempt + 1, status := Status.pending }) h1
            (by show (0 : Int) ≤ s.attempt + 1; omega) h3
          refine ⟨.dispatched s.step (s.attempt + 1)
              (buildPrompt { s with
                attempt := s.attempt + 1, status := Status.pending } rule) fwLv,
            [markRunning now { s with
               attempt := s.attempt + 1, status := Status.pending }], ?_, ?_⟩ <;>
            · unfold _dispatch dispatchExec
              simp [hd, hrule, hrun, hpass, hreq', hfail, hmax', htar, hts, hw]
        · have htd := failTarget_ne_done s.step s.reason target htar
          obtain ⟨targetRule, htr⟩ := getRule_ok_of_ne_done htd
          have hw := writeState_ok (markRunning now { s with
            step := target, attempt := 1,
            max_attempts := targetRule.max_attempts,
            timeout_min := targetRule.timeout_min, status := Status.pending })
            h1 (by show (0 : Int) ≤ 1; norm_num) (getRule_max_pos htr)
          refine ⟨.dispatched target 1
              (buildPrompt { s with
                step := target, attempt := 1,
                max_attempts := targetRule.max_attempts,
                timeout_min := targetRule.timeout_min,
                status := Status.pending } targetRule) fwLv,
            [markRunning now { s with
               step := target, attempt := 1,
               max_attempts := targetRule.max_attempts,
               timeout_min := targetRule.timeout_min,
               status := Status.pending }], ?_, ?_⟩ <;>
            · unfold _dispatch dispatchExec
              simp [hd, hrule, hrun, hpass, hreq', hfail, hmax', htar, hts,
                htr, hw]
    · have hw := writeState_ok (markRunning now s) h1 h2 h3
      refine ⟨.dispatched s.step s.attempt (buildPrompt s rule) fwLv,
        [markRunning now s], ?_, ?_⟩ <;>
        · unfold _dispatch dispatchExec
          simp [hd, hrule, hrun, hpass, hreq', hfail, hw]

/-- Witness for C3: at a concrete pending `impl` state the preview yields
the mutating call's outcome with no committed document. -/
theorem C3_witness :
    ∃ r ws, peek 5 1 { createInitialState "app" with
        step := .impl, status := .pending, attempt := 2, max_attempts := 5 } =
      .ok (r, ([] : List State)) ∧
    dispatch 5 1 { createInitialState "app" with
        step := .impl, status := .pending, attempt := 2, max_attempts := 5 } =
      .ok (r, ws) :=
  C3_idempotent_preview 5 1 { createInitialState "app" with
    step := .impl, status := .pending, attempt := 2, max_attempts := 5 } rfl

theorem idxOfChar_append_cons (c : Char) (pre post : List Char)
    (h : c ∉ pre) : idxOfChar c (pre ++ c :: post) = some pre.length := by
  induction pre with
  | nil => simp [idxOfChar]
  | cons x xs ih =>
    rw [List.mem_cons, not_or] at h
    have hx : ¬ x = c := fun e => h.1 e.symm
    simp [List.cons_append, idxOfChar, hx, ih h.2]

/-- **C7 counterexample.** The claim fails on inline bracket lists: in the
line `files: [a:b, c]` the text after the first colon is `[a:b, c]` (which
contains a further colon), yet the parser does not keep it intact as a
single value — it stores the JSON encoding of the comma-split list,
`["a:b","c"]`. -/
theorem C7_counterexample :
    trimL ((cs "files: [a:b, c]").drop 6) = cs "[a:b, c]" ∧
    containsSubL (cs "[a:b, c]") (cs ":") = true ∧
    parseSimpleYaml (cs "files: [a:b, c]") =
      [(cs "files", cs "[\"a:b\",\"c\"]")] ∧
    cs "[\"a:b\",\"c\"]" ≠ cs "[a:b, c]" :=
  ⟨rfl, rfl, rfl, by decide⟩

/-- **C7 (amended).** When the parser processes a line of the structured
block whose trimmed text has its first colon after a non-empty key — and the
line is not consumed as a list item under an open key — it splits only at
that first colon: the key is the (trimmed) text before it and the value the
(trimmed) text after it, so a non-empty scalar value other than `null` that
is not an inline bracketed `[...]` list is preserved intact as a single
value even when it contains further colons (the quantified `post` here is
arbitrary and may contain any number of colons). -/
theorem C7_first_colon_split (acc : YamlAcc) (line pre post : List Char)
    (hlv : acc.listValues = [])
    (htr : trimL line = pre ++ ':' :: post)
    (hpre : pre ≠ [])
    (hnc : ':' ∉ pre)
    (hnl : ¬(startsWithL ['-', ' '] (pre ++ ':' :: post) ∧ acc.currentKey.isSome))
    (hv : trimL post ≠ [])
    (hvn : trimL post ≠ cs "null")
    (hvb : ¬(startsWithL ['['] (trimL post) ∧ (trimL post).getLast? = some ']')) :
    yamlLine acc line =
      { acc with result := objSet acc.result (trimL pre) (trimL post),
                 currentKey := none } := by
  have hne : pre ++ ':' :: post ≠ [] := by simp [hpre]
  have hidx : idxOfChar ':' (pre ++ ':' :: post) = some pre.length :=
    idxOfChar_append_cons ':' pre post hnc
  have hlen : 0 < pre.length := List.length_pos.mpr hpre
  have htake : (pre ++ ':' :: post).take pre.length = pre :=
    List.take_left pre (':' :: post)
  have hdrop : (pre ++ ':' :: post).drop (pre.length + 1) = post := by
    have h : pre ++ ':' :: post = (pre ++ [':']) ++ post := by simp
    have hl : (pre ++ [':']).length = pre.length + 1 := by simp
    rw [h, ← hl]
    exact List.drop_left (pre ++ [':']) post
  unfold yamlLine
  rw [htr]
  rw [if_neg hne, if_neg hnl]
  cases hk : acc.currentKey with
  | none => simp [hk, hidx, hlen, htake, hdrop, hv, hvn, hvb]
  | some k => simp [hk, hlv, hidx, hlen, htake, hdrop, hv, hvn, hvb]

/-- Witness for C7 (amended): the concrete line
`reason: needs_clarification: details here` parses, from the empty parser
state, to the key `reason` bound to the whole colon-containing value. -/
theorem C7_witness :
    yamlLine ⟨[], none, []⟩ (cs "reason: needs_clarification: details here") =
      { result := [(cs "reason", cs "needs_clarification: details here")],
        currentKey := none, listValues := [] } :=
  (C7_first_colon_split ⟨[], none, []⟩
    (cs "reason: needs_clarification: details here")
    (cs "reason") (cs " needs_clarification: details here")
    rfl (by decide) (by decide) (by decide) (by decide) (by decide)
    (by decide) (by decide)).trans (by decide)

/-- **C8.** `classify` is total (it is a function into `Intent`; the
embedded code throws nowhere) and agrees with the spec's ordered-rule
reading: evaluating the fixed rule list top to bottom, the first matching
rule wins, and a message matching no rule is classified as the free-text
custom-task catch-all carrying the trimmed message as its instruction. -/
theorem C8_classifier_first_match (message : List Char) :
    classify message = classifySpec message ∧
    ((∀ r ∈ classifierRules, r.1 (trimL message) = false) →
      classify message = .custom (trimL message)) := by
  have key : classify message = classifySpec message := by
    unfold classify classifySpec classifierRules firstMatch
    cases h : storyMatch (trimL message) <;> simp [h, firstMatch]
  refine ⟨key, fun hall => ?_⟩
  simp only [classifierRules, List.forall_mem_cons] at hall
  obtain ⟨ha, hr, hs, hl, hdt, hq, hc, -⟩ := hall
  rw [key]
  unfold classifySpec classifierRules firstMatch
  simp [ha, hr, hs, hl, hdt, hq, hc, firstMatch]

/-- Witness for C8 at a concrete unmatched message: every rule test is false
and the message classifies as the custom catch-all with the trimmed text. -/
theorem C8_witness :
    classify (cs "  refactor the auth module  ") =
      .custom (cs "refactor the auth module") :=
  ((C8_classifier_first_match (cs "  refactor the auth module  ")).2
    (by decide)).trans (by decide)

/-- Witness for C6 at a concrete running state with no report. -/
theorem C6_witness :
    applyHandoff { createInitialState "app" with
      step := .impl, status := .running, dispatched_at := some 100 } none 777 =
      .ok { createInitialState "app" with
            step := .impl, status := .failing, dispatched_at := some 100,
            reason := none, completed_at := some 777 } :=
  C6_crash_inference _ 777 rfl

end Orchestrator
